import Mathlib

/-!
Verification of the football-performance-dashboard scoring engine.

The definitions below are a shallow embedding of the analytics code:
`calculate_injury_risk`, `predict_all_players` and `get_team_risk_summary`
from `app/utils/ml_model.py`, and the training-load / injury-risk / insights
computations from `app/routers/analytics.py`.  Python numbers are modelled
as rationals, Python `round(x, 1)` as `round1`, missing dictionary keys as
`Option` fields with the `.get(key, default)` defaults, and the `KeyError`
raised by `risk_levels[p["risk_level"]] += 1` as an `Except` error.
-/

/-- Python `round(x, 1)`: round to one decimal place.  (Python uses
round-half-to-even; every value the engine rounds has at most one decimal
digit, where all rounding conventions agree.) -/
def round1 (q : ℚ) : ℚ := ((q * 10 + 1 / 2).floor : ℚ) / 10

/-- The executable `Rat.floor` agrees with Mathlib's `Int.floor`. -/
theorem rat_floor_eq_intFloor (a : ℚ) : a.floor = ⌊a⌋ := by
  rw [Rat.floor_def', Rat.floor_def]

/-- Rewriting `round1` through Mathlib's floor. -/
theorem round1_eq (q : ℚ) : round1 q = ((⌊q * 10 + 1 / 2⌋ : ℤ) : ℚ) / 10 := by
  rw [round1, rat_floor_eq_intFloor]

/-- Python `min` on two rationals, written executably. -/
def pymin (a b : ℚ) : ℚ := if a ≤ b then a else b

/-- Python `max` on two rationals, written executably. -/
def pymax (a b : ℚ) : ℚ := if a ≤ b then b else a

/-- `pymin` is the lattice `min`. -/
theorem pymin_eq (a b : ℚ) : pymin a b = min a b := (min_def a b).symm

/-- `pymax` is the lattice `max`. -/
theorem pymax_eq (a b : ℚ) : pymax a b = max a b := (max_def a b).symm

/-- THRESHOLDS["weekly_training_minutes_high"]. -/
def weekly_training_minutes_high : ℚ := 600

/-- THRESHOLDS["high_intensity_percentage"]. -/
def high_intensity_percentage_threshold : ℚ := 40

/-- THRESHOLDS["min_rest_days_per_week"]. -/
def min_rest_days_per_week : ℚ := 2

/-- THRESHOLDS["age_risk_threshold"]. -/
def age_risk_threshold : ℚ := 30

/-- THRESHOLDS["sprint_count_high"]. -/
def sprint_count_high : ℚ := 50

/-- The metric fields of the `player_metrics` dictionary that
`calculate_injury_risk` reads; a `none` field models an absent key. -/
structure PlayerMetrics where
  weekly_training_minutes : Option ℚ := none
  high_intensity_percentage : Option ℚ := none
  rest_days_last_week : Option ℚ := none
  previous_injuries_count : Option ℚ := none
  days_since_last_injury : Option ℚ := none
  fatigue_score : Option ℚ := none
  sprint_count_weekly : Option ℚ := none
deriving DecidableEq, Repr

/-- One entry of the `risk_factors` list built by `calculate_injury_risk`
(the human-readable `description` string is not modelled). -/
structure RiskFactor where
  factor : String
  contribution : ℚ
  severity : String
deriving DecidableEq, Repr

/-- The result dictionary of `calculate_injury_risk` (the echoed
`metrics_analyzed` block is not modelled). -/
structure RiskResult where
  risk_score : ℚ
  risk_level : String
  recommendation : String
  risk_factors : List RiskFactor
deriving DecidableEq, Repr

/-- The risk-level mapping at the end of `calculate_injury_risk`:
`>= 70` critical, `>= 50` high, `>= 30` moderate, else low. -/
def riskLevel (t : ℚ) : String :=
  if t ≥ 70 then "critical"
  else if t ≥ 50 then "high"
  else if t ≥ 30 then "moderate"
  else "low"

/-- The recommendation string chosen alongside `riskLevel`. -/
def riskRecommendation (t : ℚ) : String :=
  if t ≥ 70 then "IMMEDIATE REST REQUIRED - High probability of injury within 7 days"
  else if t ≥ 50 then "Reduce training intensity by 40% and add extra rest day"
  else if t ≥ 30 then "Monitor closely and consider reducing high-intensity work"
  else "Continue current training plan - athlete is in good condition"

/-- One guarded accumulation step of `calculate_injury_risk`: when the
trigger held, the Python code added the contribution to `total_risk` and
appended the factor record to `risk_factors`. -/
def addFactor (acc : ℚ × List RiskFactor) (trigger : Bool) (c : ℚ)
    (f : RiskFactor) : ℚ × List RiskFactor :=
  if trigger then (acc.1 + c, acc.2 ++ [f]) else acc

/-- Shallow embedding of `calculate_injury_risk(player_metrics, age=25)`
from `app/utils/ml_model.py`: eight guarded weighted factors evaluated in a
fixed order, the total capped at 100, then mapped to a level and a
recommendation. -/
def calculate_injury_risk (pm : PlayerMetrics) (age : ℚ := 25) : RiskResult :=
  let weekly_minutes := pm.weekly_training_minutes.getD 400
  let intensity_pct := pm.high_intensity_percentage.getD 30
  let rest_days := pm.rest_days_last_week.getD 2
  let prev_injuries := pm.previous_injuries_count.getD 0
  let days_since_injury := pm.days_since_last_injury.getD 365
  let fatigue := pm.fatigue_score.getD 5
  let sprints := pm.sprint_count_weekly.getD 30
  let load_risk := pymin 25 ((weekly_minutes - weekly_training_minutes_high) / 10)
  let intensity_risk := pymin 20 ((intensity_pct - high_intensity_percentage_threshold) * 0.8)
  let rest_risk := (min_rest_days_per_week - rest_days) * 10
  let age_risk := pymin 15 ((age - age_risk_threshold) * 2)
  let injury_history_risk := pymin 15 (prev_injuries * 4)
  let recent_injury_risk := pymax 0 ((30 - days_since_injury) * 0.5)
  let fatigue_risk := (fatigue - 7) * 5
  let sprint_risk := pymin 10 ((sprints - sprint_count_high) * 0.3)
  let acc1 := addFactor (0, []) (decide (weekly_minutes > weekly_training_minutes_high))
    load_risk
    ⟨"High Training Load", round1 load_risk, if load_risk > 15 then "high" else "medium"⟩
  let acc2 := addFactor acc1 (decide (intensity_pct > high_intensity_percentage_threshold))
    intensity_risk
    ⟨"High Intensity Overload", round1 intensity_risk,
      if intensity_risk > 12 then "high" else "medium"⟩
  let acc3 := addFactor acc2 (decide (rest_days < min_rest_days_per_week))
    rest_risk
    ⟨"Insufficient Recovery", round1 rest_risk, if rest_days = 0 then "high" else "medium"⟩
  let acc4 := addFactor acc3 (decide (age > age_risk_threshold))
    age_risk
    ⟨"Age-Related Risk", round1 age_risk, "medium"⟩
  let acc5 := addFactor acc4 (decide (prev_injuries > 0))
    injury_history_risk
    ⟨"Injury History", round1 injury_history_risk,
      if prev_injuries ≥ 3 then "high" else "medium"⟩
  let acc6 := addFactor acc5 (decide (days_since_injury < 30))
    recent_injury_risk
    ⟨"Recent Injury", round1 recent_injury_risk, "high"⟩
  let acc7 := addFactor acc6 (decide (fatigue > 7))
    fatigue_risk
    ⟨"Accumulated Fatigue", round1 fatigue_risk, if fatigue ≥ 9 then "high" else "medium"⟩
  let acc8 := addFactor acc7 (decide (sprints > sprint_count_high))
    sprint_risk
    ⟨"Sprint Overload", round1 sprint_risk, "medium"⟩
  let total_risk := pymin 100 acc8.1
  { risk_score := round1 total_risk
    risk_level := riskLevel total_risk
    recommendation := riskRecommendation total_risk
    risk_factors := acc8.2 }

/-- The metrics record of the spec's concrete injury-risk scenario. -/
def scenarioMetrics : PlayerMetrics :=
  { weekly_training_minutes := some 650
    high_intensity_percentage := some 50
    rest_days_last_week := some 1
    previous_injuries_count := some 2
    days_since_last_injury := some 200
    fatigue_score := some 8
    sprint_count_weekly := some 60 }

/-- Shallow embedding of the load-score computation in `get_training_load`
(`app/routers/analytics.py`): `min(100, (total_mins / (days * 90)) * 100)`,
90 minutes per day counting as 100% load. -/
def load_score (total_minutes : ℚ) (days : ℕ) : ℚ :=
  pymin 100 ((total_minutes / ((days : ℚ) * 90)) * 100)

/-- The status level chosen from the load score in `get_training_load`,
checked top-down with strict comparisons. -/
def load_status (s : ℚ) : String :=
  if s > 85 then "warning"
  else if s > 70 then "optimal"
  else if s > 50 then "moderate"
  else "low"

/-- The recommendation string chosen alongside `load_status`. -/
def load_recommendation (s : ℚ) : String :=
  if s > 85 then "High load - Consider rest day"
  else if s > 70 then "Optimal training load"
  else if s > 50 then "Moderate load - Can increase intensity"
  else "Low load - Increase training volume"

/-- Shallow embedding of the risk-score accumulation in `get_injury_risk`
(`app/routers/analytics.py`): four guarded flat contributions. -/
def analytics_risk_score (total_mins age avg_max_hr total_sprints : ℚ) : ℕ :=
  (if total_mins > 1400 then 30 else 0) +
  (if age > 30 then 15 else 0) +
  (if avg_max_hr > 180 then 25 else 0) +
  (if total_sprints > 200 then 20 else 0)

/-- The level mapping of `get_injury_risk`: `>= 60` high, `>= 40` medium,
`>= 20` low-medium, else low. -/
def analytics_risk_level (score : ℕ) : String :=
  if score ≥ 60 then "high"
  else if score ≥ 40 then "medium"
  else if score ≥ 20 then "low-medium"
  else "low"

/-- The cohort status of `get_injury_risk`:
`"high" if high_risk_count > 0 else "medium" if medium_risk_count > 2 else "low"`. -/
def overall_risk (high_risk_count medium_risk_count : ℕ) : String :=
  if high_risk_count > 0 then "high"
  else if medium_risk_count > 2 then "medium"
  else "low"

/-- One entry of the list `predict_all_players` builds and sorts, and the
record `get_team_risk_summary` consumes: the per-player prediction with its
score, level and factor list. -/
structure PlayerPred where
  player_id : ℕ
  risk_score : ℚ
  risk_level : String
  risk_factors : List RiskFactor
deriving DecidableEq, Repr

/-- The comparison `results.sort(key=lambda x: x["risk_score"], reverse=True)`
stably sorts by: `a` may precede `b` when `a.risk_score ≥ b.risk_score`. -/
def riskGE (a b : PlayerPred) : Prop := b.risk_score ≤ a.risk_score

instance : DecidableRel riskGE := fun a b =>
  inferInstanceAs (Decidable (b.risk_score ≤ a.risk_score))

instance : IsTotal PlayerPred riskGE :=
  ⟨fun a b => le_total b.risk_score a.risk_score⟩

instance : IsTrans PlayerPred riskGE :=
  ⟨fun _ _ _ h1 h2 => le_trans h2 h1⟩

/-- Python's `list.sort` with `reverse=True` is a stable descending sort;
insertion sort with `riskGE` has exactly that input/output behaviour. -/
def sortByRiskDesc (l : List PlayerPred) : List PlayerPred :=
  l.insertionSort riskGE

/-- An input player record for `predict_all_players`: an id, an optional
age (`player.get("age", 25)`) and the metrics dictionary. -/
structure Player where
  id : ℕ
  age : Option ℚ := none
  metrics : PlayerMetrics := {}

/-- Shallow embedding of `predict_all_players`: score every player with
`calculate_injury_risk`, then sort by risk score, highest first. -/
def predict_all_players (players : List Player) : List PlayerPred :=
  sortByRiskDesc (players.map fun p =>
    let r := calculate_injury_risk p.metrics (p.age.getD 25)
    { player_id := p.id
      risk_score := r.risk_score
      risk_level := r.risk_level
      risk_factors := r.risk_factors })

/-- Inserting an element whose score equals `s` prepends it to the score-`s`
subsequence: every element it is placed after has a strictly larger score. -/
theorem filter_orderedInsert_of_eq (x : PlayerPred) (s : ℚ) (hx : x.risk_score = s) :
    ∀ l : List PlayerPred,
      (l.orderedInsert riskGE x).filter (fun p => decide (p.risk_score = s)) =
        x :: l.filter (fun p => decide (p.risk_score = s)) := by
  intro l
  induction l with
  | nil => simp [List.orderedInsert, hx]
  | cons y ys ih =>
    by_cases h : riskGE x y
    · simp [List.orderedInsert, h, hx]
    · have h' : ¬ y.risk_score ≤ x.risk_score := h
      have hlt := lt_of_not_le h'
      have hy : ¬ y.risk_score = s := by
        intro he
        rw [hx, he] at hlt
        exact lt_irrefl s hlt
      simp [List.orderedInsert, h, ih, hy]

/-- Inserting an element whose score differs from `s` leaves the score-`s`
subsequence unchanged. -/
theorem filter_orderedInsert_of_ne (x : PlayerPred) (s : ℚ) (hx : ¬ x.risk_score = s) :
    ∀ l : List PlayerPred,
      (l.orderedInsert riskGE x).filter (fun p => decide (p.risk_score = s)) =
        l.filter (fun p => decide (p.risk_score = s)) := by
  intro l
  induction l with
  | nil => simp [List.orderedInsert, hx]
  | cons y ys ih =>
    by_cases h : riskGE x y
    · simp [List.orderedInsert, h, hx]
    · simp only [List.orderedInsert, if_neg h, List.filter_cons, ih]

/-- Stability of the ranker: for every score value, the subsequence of
entries carrying that score is untouched by the sort. -/
theorem sortByRiskDesc_stable (l : List PlayerPred) (s : ℚ) :
    (sortByRiskDesc l).filter (fun p => decide (p.risk_score = s)) =
      l.filter (fun p => decide (p.risk_score = s)) := by
  induction l with
  | nil => rfl
  | cons x xs ih =>
    have ih' : (List.insertionSort riskGE xs).filter (fun p => decide (p.risk_score = s)) =
        xs.filter (fun p => decide (p.risk_score = s)) := ih
    show ((List.insertionSort riskGE xs).orderedInsert riskGE x).filter _ = _
    by_cases hx : x.risk_score = s
    · rw [filter_orderedInsert_of_eq x s hx, ih']
      simp [List.filter_cons, hx]
    · rw [filter_orderedInsert_of_ne x s hx, ih']
      simp [List.filter_cons, hx]

/-- The four keys of the `risk_levels` histogram dictionary in
`get_team_risk_summary`. -/
def validLevel (s : String) : Bool :=
  s == "critical" || s == "high" || s == "moderate" || s == "low"

/-- The `risk_levels` histogram: one counter per risk level. -/
structure RiskLevels where
  critical : ℕ
  high : ℕ
  moderate : ℕ
  low : ℕ
deriving DecidableEq, Repr

/-- One update `risk_levels[p["risk_level"]] += 1`: any level other than the
four dictionary keys raises a `KeyError`, modelled as an `Except` error. -/
def bumpLevel (rl : RiskLevels) (level : String) : Except String RiskLevels :=
  if level = "critical" then .ok { rl with critical := rl.critical + 1 }
  else if level = "high" then .ok { rl with high := rl.high + 1 }
  else if level = "moderate" then .ok { rl with moderate := rl.moderate + 1 }
  else if level = "low" then .ok { rl with low := rl.low + 1 }
  else .error ("KeyError: " ++ level)

/-- The histogram-and-total loop of `get_team_risk_summary`. -/
def buildLevelsAux (rl : RiskLevels) (tot : ℚ) :
    List PlayerPred → Except String (RiskLevels × ℚ)
  | [] => .ok (rl, tot)
  | p :: ps =>
    match bumpLevel rl p.risk_level with
    | .error e => .error e
    | .ok rl2 => buildLevelsAux rl2 (tot + p.risk_score) ps

/-- One update `factor_counts[f] = factor_counts.get(f, 0) + 1` on an
insertion-ordered association list (Python dicts preserve insertion order). -/
def bumpCount : List (String × ℕ) → String → List (String × ℕ)
  | [], f => [(f, 1)]
  | (g, n) :: t, f => if g = f then (g, n + 1) :: t else (g, n) :: bumpCount t f

/-- The comparison behind `sorted(factor_counts.items(), key=lambda x: x[1],
reverse=True)`. -/
def countGE (a b : String × ℕ) : Prop := b.2 ≤ a.2

instance : DecidableRel countGE := fun a b =>
  inferInstanceAs (Decidable (b.2 ≤ a.2))

instance : IsTotal (String × ℕ) countGE := ⟨fun a b => le_total b.2 a.2⟩

instance : IsTrans (String × ℕ) countGE := ⟨fun _ _ _ h1 h2 => le_trans h2 h1⟩

/-- The team-level summary dictionary of `get_team_risk_summary`. -/
structure TeamSummary where
  total_players : ℕ
  average_risk_score : ℚ
  risk_distribution : RiskLevels
  players_at_critical_risk : ℕ
  players_at_high_risk : ℕ
  top_risk_factors : List (String × ℕ)
  team_health_status : String
deriving DecidableEq, Repr

/-- The two normal returns of `get_team_risk_summary`: the
`{"error": "No predictions available"}` marker for an empty input, or the
team summary. -/
inductive SummaryOut where
  | errorEmpty
  | summary (s : TeamSummary)
deriving DecidableEq, Repr

/-- The cohort status expression of `get_team_risk_summary`:
`"ALERT" if critical > 0 else "CAUTION" if high > 2 else "GOOD"`. -/
def team_health_status (critical high : ℕ) : String :=
  if critical > 0 then "ALERT"
  else if high > 2 then "CAUTION"
  else "GOOD"

/-- Shallow embedding of `get_team_risk_summary` from `app/utils/ml_model.py`.
A raised `KeyError` is the `Except.error` case; both Python `return`
statements are `Except.ok`. -/
def get_team_risk_summary (predictions : List PlayerPred) :
    Except String SummaryOut :=
  if predictions = [] then .ok .errorEmpty
  else
    match buildLevelsAux ⟨0, 0, 0, 0⟩ 0 predictions with
    | .error e => .error e
    | .ok (rl, total_risk) =>
      let avg_risk := total_risk / (predictions.length : ℚ)
      let all_factors :=
        predictions.foldl (fun acc p => acc ++ p.risk_factors.map (fun f => f.factor)) []
      let factor_counts := all_factors.foldl bumpCount []
      let top_factors := (factor_counts.insertionSort countGE).take 5
      .ok (.summary
        { total_players := predictions.length
          average_risk_score := round1 avg_risk
          risk_distribution := rl
          players_at_critical_risk := rl.critical
          players_at_high_risk := rl.high
          top_risk_factors := top_factors
          team_health_status := team_health_status rl.critical rl.high })

/-- Whether a summarizer call raised (modelled) rather than returned. -/
def isError : Except String SummaryOut → Bool
  | .error _ => true
  | .ok _ => false

/-- Formalisation of the claim wording for the empty-cohort behaviour: the
summarizer returns a summary whose counts are all zero. -/
def isZeroCountSummary : Except String SummaryOut → Bool
  | .ok (.summary s) =>
    s.total_players == 0 && s.risk_distribution.critical == 0 &&
      s.risk_distribution.high == 0 && s.risk_distribution.moderate == 0 &&
      s.risk_distribution.low == 0
  | _ => false

/-- One per-player input row of `get_insights` (`app/routers/analytics.py`):
the aggregates the insights loop reads, with `none` for SQL NULLs. -/
structure InsightRow where
  name : String
  age : Option ℚ := none
  total_minutes : Option ℚ := none
  avg_hr : Option ℚ := none

/-- The running state of the `get_insights` loop. -/
structure InsightAcc where
  recovery_recommendations : List (String × String) := []
  injury_prevention : List String := []
  workload_optimization : List String := []
  needs_recovery : ℕ := 0
  optimal_load : ℕ := 0
deriving DecidableEq, Repr

/-- One iteration of the `get_insights` loop: the recovery bucket is an
if/elif/else (high volume, else elevated heart rate, else optimal), the
injury-prevention and workload buckets are independent conditions. -/
def insightStep (acc : InsightAcc) (r : InsightRow) : InsightAcc :=
  let total_mins := r.total_minutes.getD 0
  let avg_hr := r.avg_hr.getD 0
  let acc1 :=
    if total_mins > 1200 then
      { acc with
          needs_recovery := acc.needs_recovery + 1
          recovery_recommendations := acc.recovery_recommendations ++ [(r.name, "high")] }
    else if avg_hr > 165 then
      { acc with
          recovery_recommendations := acc.recovery_recommendations ++ [(r.name, "medium")] }
    else { acc with optimal_load := acc.optimal_load + 1 }
  let acc2 :=
    if (r.age.any fun a => decide (a > 30)) && decide (total_mins > 1000) then
      { acc1 with injury_prevention := acc1.injury_prevention ++ [r.name] }
    else acc1
  if total_mins < 400 then
    { acc2 with workload_optimization := acc2.workload_optimization ++ [r.name] }
  else acc2

/-- The summary block of `get_insights`, with the guarded
`recovery_percentage` division. -/
structure InsightsSummary where
  total_players_analyzed : ℕ
  players_needing_recovery : ℕ
  players_optimal_load : ℕ
  recovery_percentage : ℚ
  period_days : ℕ
deriving DecidableEq, Repr

/-- The full `get_insights` response. -/
structure Insights where
  recovery_recommendations : List (String × String)
  injury_prevention : List String
  workload_optimization : List String
  summary : InsightsSummary
deriving DecidableEq, Repr

/-- Shallow embedding of `get_insights` from `app/routers/analytics.py`. -/
def get_insights (rows : List InsightRow) (days : ℕ) : Insights :=
  let acc := rows.foldl insightStep {}
  let total_players := rows.length
  { recovery_recommendations := acc.recovery_recommendations
    injury_prevention := acc.injury_prevention
    workload_optimization := acc.workload_optimization
    summary :=
      { total_players_analyzed := total_players
        players_needing_recovery := acc.needs_recovery
        players_optimal_load := acc.optimal_load
        recovery_percentage :=
          round1 (if total_players > 0 then
            (acc.needs_recovery : ℚ) / (total_players : ℚ) * 100 else 0)
        period_days := days } }

/-- `round1` preserves non-negativity. -/
theorem round1_nonneg {q : ℚ} (h : 0 ≤ q) : 0 ≤ round1 q := by
  rw [round1_eq]
  apply div_nonneg _ (by norm_num)
  have h0 : (0 : ℚ) ≤ q * 10 + 1 / 2 := by linarith
  exact_mod_cast Int.le_floor.mpr (by exact_mod_cast h0)

/-- `round1` of a value at most a natural bound stays at most that bound. -/
theorem round1_le_nat (q : ℚ) (n : ℕ) (h : q ≤ (n : ℚ)) : round1 q ≤ (n : ℚ) := by
  rw [round1_eq]
  rw [div_le_iff₀ (by norm_num : (0 : ℚ) < 10)]
  have hlt : q * 10 + 1 / 2 < ((10 * (n : ℤ) + 1 : ℤ) : ℚ) := by
    push_cast
    linarith
  have hfl : ⌊q * 10 + 1 / 2⌋ < 10 * (n : ℤ) + 1 := Int.floor_lt.mpr hlt
  have hle : ⌊q * 10 + 1 / 2⌋ ≤ 10 * (n : ℤ) := by omega
  calc ((⌊q * 10 + 1 / 2⌋ : ℤ) : ℚ) ≤ ((10 * (n : ℤ) : ℤ) : ℚ) := by exact_mod_cast hle
    _ = (n : ℚ) * 10 := by push_cast; ring

/-- The running total of `addFactor` stays non-negative when a triggered
contribution is non-negative. -/
theorem addFactor_fst_nonneg {acc : ℚ × List RiskFactor} {trigger : Bool} {c : ℚ}
    {f : RiskFactor} (hacc : 0 ≤ acc.1) (hc : trigger = true → 0 ≤ c) :
    0 ≤ (addFactor acc trigger c f).1 := by
  unfold addFactor
  cases trigger with
  | false => simpa using hacc
  | true => simpa using add_nonneg hacc (hc rfl)

/-- A member of the factor list after an `addFactor` step is either an old
member or the newly appended factor. -/
theorem mem_addFactor {g : RiskFactor} {acc : ℚ × List RiskFactor} {trigger : Bool}
    {c : ℚ} {f : RiskFactor} (h : g ∈ (addFactor acc trigger c f).2) :
    g ∈ acc.2 ∨ g = f := by
  unfold addFactor at h
  cases trigger with
  | false =>
    simp only [Bool.false_eq_true, if_false] at h
    exact Or.inl h
  | true =>
    simp only [if_true, List.mem_append, List.mem_singleton] at h
    exact h

/-- The factor-specific ceiling each contribution is bounded by: the `min`
caps of factors 1, 2, 4, 5 and 8, and the range-implied bounds of factors
3, 6 and 7. -/
def factorCeiling : String → ℚ
  | "High Training Load" => 25
  | "High Intensity Overload" => 20
  | "Insufficient Recovery" => 20
  | "Age-Related Risk" => 15
  | "Injury History" => 15
  | "Recent Injury" => 15
  | "Accumulated Fatigue" => 15
  | "Sprint Overload" => 10
  | _ => 0

/-- C1: the injury-risk scorer evaluates its eight weighted factors in the
documented fixed order, each only when its trigger holds and each bounded by
its factor-specific ceiling (given in-range rest days, fatigue and
days-since-injury); on the concrete scenario (650 min, 50% intensity, 1 rest
day, age 32, 2 prior injuries, 200 days since injury, fatigue 8, 60 sprints)
the triggered contributions are 5, 8, 10, 4, 8, 5, 3, the total is 43 and
the level is "moderate". -/
theorem injury_risk_scenario_and_caps :
    ((calculate_injury_risk scenarioMetrics 32).risk_factors.map
      (fun f => (f.factor, f.contribution)) =
      [("High Training Load", 5), ("High Intensity Overload", 8),
       ("Insufficient Recovery", 10), ("Age-Related Risk", 4),
       ("Injury History", 8), ("Accumulated Fatigue", 5),
       ("Sprint Overload", 3)]) ∧
    (calculate_injury_risk scenarioMetrics 32).risk_score = 43 ∧
    (calculate_injury_risk scenarioMetrics 32).risk_level = "moderate" ∧
    (∀ (pm : PlayerMetrics) (age : ℚ),
      0 ≤ pm.rest_days_last_week.getD 2 →
      0 ≤ pm.days_since_last_injury.getD 365 →
      pm.fatigue_score.getD 5 ≤ 10 →
      ∀ f ∈ (calculate_injury_risk pm age).risk_factors,
        f.contribution ≤ factorCeiling f.factor) := by
  refine ⟨?_, ?_, ?_, ?_⟩
  · norm_num [calculate_injury_risk, scenarioMetrics, addFactor, pymin, pymax,
      round1_eq, weekly_training_minutes_high, high_intensity_percentage_threshold,
      min_rest_days_per_week, age_risk_threshold, sprint_count_high]
  · norm_num [calculate_injury_risk, scenarioMetrics, addFactor, pymin, pymax,
      round1_eq, weekly_training_minutes_high, high_intensity_percentage_threshold,
      min_rest_days_per_week, age_risk_threshold, sprint_count_high]
  · norm_num [calculate_injury_risk, scenarioMetrics, addFactor, pymin, pymax,
      round1_eq, weekly_training_minutes_high, high_intensity_percentage_threshold,
      min_rest_days_per_week, age_risk_threshold, sprint_count_high, riskLevel]
  · intro pm age hrest hdays hfat f hf
    simp only [calculate_injury_risk] at hf
    rcases mem_addFactor hf with hf | rfl
    rotate_left
    · refine le_trans (round1_le_nat _ 10 ?_) (by norm_num [factorCeiling])
      push_cast
      rw [pymin_eq]
      exact min_le_left _ _
    rcases mem_addFactor hf with hf | rfl
    rotate_left
    · refine le_trans (round1_le_nat _ 15 ?_) (by norm_num [factorCeiling])
      push_cast
      linarith
    rcases mem_addFactor hf with hf | rfl
    rotate_left
    · refine le_trans (round1_le_nat _ 15 ?_) (by norm_num [factorCeiling])
      push_cast
      rw [pymax_eq]
      apply max_le (by norm_num)
      linarith
    rcases mem_addFactor hf with hf | rfl
    rotate_left
    · refine le_trans (round1_le_nat _ 15 ?_) (by norm_num [factorCeiling])
      push_cast
      rw [pymin_eq]
      exact min_le_left _ _
    rcases mem_addFactor hf with hf | rfl
    rotate_left
    · refine le_trans (round1_le_nat _ 15 ?_) (by norm_num [factorCeiling])
      push_cast
      rw [pymin_eq]
      exact min_le_left _ _
    rcases mem_addFactor hf with hf | rfl
    rotate_left
    · refine le_trans (round1_le_nat _ 20 ?_) (by norm_num [factorCeiling])
      push_cast
      norm_num [min_rest_days_per_week]
      linarith
    rcases mem_addFactor hf with hf | rfl
    rotate_left
    · refine le_trans (round1_le_nat _ 20 ?_) (by norm_num [factorCeiling])
      push_cast
      rw [pymin_eq]
      exact min_le_left _ _
    rcases mem_addFactor hf with hf | rfl
    rotate_left
    · refine le_trans (round1_le_nat _ 25 ?_) (by norm_num [factorCeiling])
      push_cast
      rw [pymin_eq]
      exact min_le_left _ _
    simp at hf

/-- Witness for C1's universally quantified cap property, instantiated at
the concrete scenario metrics. -/
theorem injury_risk_scenario_and_caps_witness :
    (0 : ℚ) ≤ scenarioMetrics.rest_days_last_week.getD 2 ∧
    (0 : ℚ) ≤ scenarioMetrics.days_since_last_injury.getD 365 ∧
    scenarioMetrics.fatigue_score.getD 5 ≤ 10 ∧
    (∀ f ∈ (calculate_injury_risk scenarioMetrics 32).risk_factors,
      f.contribution ≤ factorCeiling f.factor) :=
  ⟨by norm_num [scenarioMetrics], by norm_num [scenarioMetrics],
   by norm_num [scenarioMetrics],
   injury_risk_scenario_and_caps.2.2.2 scenarioMetrics 32
     (by norm_num [scenarioMetrics]) (by norm_num [scenarioMetrics])
     (by norm_num [scenarioMetrics])⟩

/-- C2: for all inputs (in particular all non-negative metric values) the
injury-risk score lies in [0, 100], and for non-negative total minutes the
training-load score lies in [0, 100]. -/
theorem scores_within_bounds :
    ∀ (pm : PlayerMetrics) (age : ℚ) (total_minutes : ℚ) (days : ℕ),
      0 ≤ total_minutes →
      0 ≤ (calculate_injury_risk pm age).risk_score ∧
      (calculate_injury_risk pm age).risk_score ≤ 100 ∧
      0 ≤ load_score total_minutes days ∧
      load_score total_minutes days ≤ 100 := by
  intro pm age t d ht
  refine ⟨?_, ?_, ?_, ?_⟩
  · simp only [calculate_injury_risk]
    apply round1_nonneg
    rw [pymin_eq]
    refine le_min (by norm_num) ?_
    refine addFactor_fst_nonneg (addFactor_fst_nonneg (addFactor_fst_nonneg
      (addFactor_fst_nonneg (addFactor_fst_nonneg (addFactor_fst_nonneg
        (addFactor_fst_nonneg (addFactor_fst_nonneg (le_refl 0) ?_) ?_) ?_)
          ?_) ?_) ?_) ?_) ?_
    · intro h
      replace h := of_decide_eq_true h
      rw [pymin_eq]
      refine le_min (by norm_num) ?_
      simp only [weekly_training_minutes_high] at h ⊢
      apply div_nonneg (by linarith) (by norm_num)
    · intro h
      replace h := of_decide_eq_true h
      rw [pymin_eq]
      refine le_min (by norm_num) ?_
      simp only [high_intensity_percentage_threshold] at h ⊢
      apply mul_nonneg (by linarith) (by norm_num)
    · intro h
      replace h := of_decide_eq_true h
      simp only [min_rest_days_per_week] at h ⊢
      apply mul_nonneg (by linarith) (by norm_num)
    · intro h
      replace h := of_decide_eq_true h
      rw [pymin_eq]
      refine le_min (by norm_num) ?_
      simp only [age_risk_threshold] at h ⊢
      apply mul_nonneg (by linarith) (by norm_num)
    · intro h
      replace h := of_decide_eq_true h
      rw [pymin_eq]
      refine le_min (by norm_num) ?_
      apply mul_nonneg (by linarith) (by norm_num)
    · intro h
      rw [pymax_eq]
      exact le_max_left _ _
    · intro h
      replace h := of_decide_eq_true h
      apply mul_nonneg (by linarith) (by norm_num)
    · intro h
      replace h := of_decide_eq_true h
      rw [pymin_eq]
      refine le_min (by norm_num) ?_
      simp only [sprint_count_high] at h ⊢
      apply mul_nonneg (by linarith) (by norm_num)
  · simp only [calculate_injury_risk]
    refine le_trans (round1_le_nat _ 100 ?_) (by norm_num)
    push_cast
    rw [pymin_eq]
    exact min_le_left _ _
  · rw [load_score, pymin_eq]
    refine le_min (by norm_num) ?_
    apply mul_nonneg _ (by norm_num)
    apply div_nonneg ht
    positivity
  · rw [load_score, pymin_eq]
    exact min_le_left _ _

/-- Witness for C2 at the scenario metrics, 630 minutes and a 7-day window. -/
theorem scores_within_bounds_witness :
    (0 : ℚ) ≤ 630 ∧
    (0 ≤ (calculate_injury_risk scenarioMetrics 32).risk_score ∧
     (calculate_injury_risk scenarioMetrics 32).risk_score ≤ 100 ∧
     0 ≤ load_score 630 7 ∧ load_score 630 7 ≤ 100) :=
  ⟨by norm_num, scores_within_bounds scenarioMetrics 32 630 7 (by norm_num)⟩

/-- C4: the training-load score equals `clamp(0, 100, (total/(days*90))*100)`
for non-negative totals, the level mapping is the documented top-down
first-match chain with its messages, and 630 minutes over 7 days give score
100 and level "warning". -/
theorem training_load_formula_and_levels :
    (∀ (t : ℚ) (d : ℕ), 0 ≤ t →
      load_score t d = max 0 (min 100 ((t / ((d : ℚ) * 90)) * 100))) ∧
    (∀ s : ℚ,
      (85 < s → load_status s = "warning" ∧
        load_recommendation s = "High load - Consider rest day") ∧
      (70 < s → s ≤ 85 → load_status s = "optimal") ∧
      (50 < s → s ≤ 70 → load_status s = "moderate") ∧
      (s ≤ 50 → load_status s = "low")) ∧
    load_score 630 7 = 100 ∧
    load_status (load_score 630 7) = "warning" := by
  refine ⟨?_, ?_, ?_, ?_⟩
  · intro t d ht
    rw [load_score, pymin_eq, max_eq_right]
    refine le_min (by norm_num) ?_
    apply mul_nonneg _ (by norm_num)
    apply div_nonneg ht
    positivity
  · intro s
    refine ⟨?_, ?_, ?_, ?_⟩
    · intro h
      constructor
      · rw [load_status, if_pos h]
      · rw [load_recommendation, if_pos h]
    · intro h1 h2
      rw [load_status, if_neg (by linarith), if_pos h1]
    · intro h1 h2
      rw [load_status, if_neg (by linarith), if_neg (by linarith), if_pos h1]
    · intro h
      rw [load_status, if_neg (by linarith), if_neg (by linarith),
        if_neg (by linarith)]
  · norm_num [load_score, pymin]
  · norm_num [load_score, pymin, load_status]

/-- Witness for C4's quantified parts: the clamp identity at 630 minutes
over 7 days, and the "warning" branch at score 90. -/
theorem training_load_formula_and_levels_witness :
    ((0 : ℚ) ≤ 630 ∧
      load_score 630 7 = max 0 (min 100 ((630 / ((7 : ℚ) * 90)) * 100))) ∧
    ((85 : ℚ) < 90 ∧ load_status 90 = "warning" ∧
      load_recommendation 90 = "High load - Consider rest day") :=
  ⟨⟨by norm_num, by
      have h := training_load_formula_and_levels.1 630 7 (by norm_num)
      simpa using h⟩,
   ⟨by norm_num,
    ((training_load_formula_and_levels.2.1 90).1 (by norm_num)).1,
    ((training_load_formula_and_levels.2.1 90).1 (by norm_num)).2⟩⟩

/-- C5: a metrics record with every optional field absent scores with the
neutral defaults (400 min, 30% intensity, 2 rest days, 0 prior injuries,
365 days since injury, fatigue 5, 30 sprints, age 25): no factor triggers,
the risk score is 0 and the level is "low". -/
theorem injury_risk_all_fields_absent :
    calculate_injury_risk {} =
      { risk_score := 0
        risk_level := "low"
        recommendation := "Continue current training plan - athlete is in good condition"
        risk_factors := [] } := by
  norm_num [calculate_injury_risk, addFactor, pymin, pymax, round1_eq,
    weekly_training_minutes_high, high_intensity_percentage_threshold,
    min_rest_days_per_week, age_risk_threshold, sprint_count_high,
    riskLevel, riskRecommendation]

/-- C6: the risk-level thresholds are inclusive at their lower bounds: a
total of exactly 70 is "critical", and any total in [50, 70) is "high". -/
theorem risk_level_boundary :
    riskLevel 70 = "critical" ∧
    ∀ s : ℚ, 50 ≤ s → s < 70 → riskLevel s = "high" := by
  constructor
  · norm_num [riskLevel]
  · intro s h1 h2
    rw [riskLevel, if_neg (by intro h; exact absurd h (by linarith)),
      if_pos (by exact h1)]

/-- Witness for C6 at 69.999: it classifies as "high". -/
theorem risk_level_boundary_witness :
    (50 : ℚ) ≤ 69.999 ∧ (69.999 : ℚ) < 70 ∧ riskLevel 69.999 = "high" :=
  ⟨by norm_num, by norm_num,
   risk_level_boundary.2 69.999 (by norm_num) (by norm_num)⟩

/-- C9: for a fixed window length, the training-load score is monotonically
non-decreasing in the total minutes. -/
theorem load_score_monotone :
    ∀ (t1 t2 : ℚ) (d : ℕ), t1 ≤ t2 → load_score t1 d ≤ load_score t2 d := by
  intro t1 t2 d h
  rcases Nat.eq_zero_or_pos d with hd | hd
  · subst hd
    simp [load_score]
  · rw [load_score, load_score, pymin_eq, pymin_eq]
    refine min_le_min (le_refl 100) ?_
    apply mul_le_mul_of_nonneg_right _ (by norm_num)
    have hpos : (0 : ℚ) < (d : ℚ) * 90 := by
      have : (0 : ℚ) < (d : ℚ) := by exact_mod_cast hd
      nlinarith
    exact (div_le_div_iff_of_pos_right hpos).mpr h

/-- Witness for C9: 100 ≤ 200 total minutes over a 7-day window. -/
theorem load_score_monotone_witness :
    (100 : ℚ) ≤ 200 ∧ load_score 100 7 ≤ load_score 200 7 :=
  ⟨by norm_num, load_score_monotone 100 200 7 (by norm_num)⟩

/-- C7: the ranker returns a permutation of its input, sorted by risk score
in descending order, and the sort is stable: for every score value, the
subsequence of entries with that score is unchanged. -/
theorem ranker_sorted_descending_and_stable :
    ∀ l : List PlayerPred,
      (sortByRiskDesc l).Perm l ∧
      (sortByRiskDesc l).Pairwise (fun a b => b.risk_score ≤ a.risk_score) ∧
      ∀ s : ℚ,
        (sortByRiskDesc l).filter (fun p => decide (p.risk_score = s)) =
          l.filter (fun p => decide (p.risk_score = s)) := by
  intro l
  exact ⟨List.perm_insertionSort riskGE l,
    List.sorted_insertionSort riskGE l,
    fun s => sortByRiskDesc_stable l s⟩

/-- C3 counterexample: on the empty cohort the team summarizer does not
return a zero-count summary (it returns the error-dictionary marker). -/
theorem empty_cohort_counterexample :
    isZeroCountSummary (get_team_risk_summary []) = false := rfl

/-- C3 amended: on an empty cohort the team summarizer short-circuits to the
`{"error": "No predictions available"}` marker without raising, and the
insight synthesizer's summary reports zero counts and a recovery percentage
of 0 (the division is guarded). -/
theorem empty_cohort_behaviour :
    get_team_risk_summary [] = .ok .errorEmpty ∧
    ∀ days : ℕ,
      (get_insights [] days).summary =
        { total_players_analyzed := 0
          players_needing_recovery := 0
          players_optimal_load := 0
          recovery_percentage := 0
          period_days := days } := by
  refine ⟨rfl, fun days => ?_⟩
  norm_num [get_insights, round1_eq]

/-- Unfolding lemma for one step of the histogram loop. -/
theorem buildLevelsAux_cons (rl : RiskLevels) (tot : ℚ) (p : PlayerPred)
    (ps : List PlayerPred) :
    buildLevelsAux rl tot (p :: ps) =
      match bumpLevel rl p.risk_level with
      | .error e => .error e
      | .ok rl2 => buildLevelsAux rl2 (tot + p.risk_score) ps := rfl

/-- `bumpLevel` on the "critical" key. -/
theorem bumpLevel_critical (rl : RiskLevels) :
    bumpLevel rl "critical" = .ok { rl with critical := rl.critical + 1 } := by
  unfold bumpLevel
  rw [if_pos rfl]

/-- `bumpLevel` on the "high" key. -/
theorem bumpLevel_high (rl : RiskLevels) :
    bumpLevel rl "high" = .ok { rl with high := rl.high + 1 } := by
  unfold bumpLevel
  rw [if_neg (by decide), if_pos rfl]

/-- `bumpLevel` on the "moderate" key. -/
theorem bumpLevel_moderate (rl : RiskLevels) :
    bumpLevel rl "moderate" = .ok { rl with moderate := rl.moderate + 1 } := by
  unfold bumpLevel
  rw [if_neg (by decide), if_neg (by decide), if_pos rfl]

/-- `bumpLevel` on the "low" key. -/
theorem bumpLevel_low (rl : RiskLevels) :
    bumpLevel rl "low" = .ok { rl with low := rl.low + 1 } := by
  unfold bumpLevel
  rw [if_neg (by decide), if_neg (by decide), if_neg (by decide), if_pos rfl]

/-- `bumpLevel` on any other key raises the modelled `KeyError`. -/
theorem bumpLevel_invalid (rl : RiskLevels) (lvl : String)
    (h : validLevel lvl = false) :
    bumpLevel rl lvl = .error ("KeyError: " ++ lvl) := by
  have h' := h
  simp only [validLevel, Bool.or_eq_false_iff, beq_eq_false_iff_ne, ne_eq] at h'
  obtain ⟨⟨⟨h1, h2⟩, h3⟩, h4⟩ := h'
  unfold bumpLevel
  rw [if_neg h1, if_neg h2, if_neg h3, if_neg h4]

/-- The histogram loop counts exactly the occurrences of each level. -/
theorem buildLevelsAux_counts :
    ∀ (l : List PlayerPred) (rl : RiskLevels) (tot : ℚ) (rl' : RiskLevels)
      (tot' : ℚ),
      buildLevelsAux rl tot l = .ok (rl', tot') →
      rl'.critical = rl.critical + l.countP (fun p => p.risk_level == "critical") ∧
      rl'.high = rl.high + l.countP (fun p => p.risk_level == "high") := by
  intro l
  induction l with
  | nil =>
    intro rl tot rl' tot' h
    simp only [buildLevelsAux, Except.ok.injEq, Prod.mk.injEq] at h
    obtain ⟨ha, hb⟩ := h
    subst ha
    simp
  | cons p ps ih =>
    intro rl tot rl' tot' h
    by_cases h1 : p.risk_level = "critical"
    · rw [buildLevelsAux_cons, h1, bumpLevel_critical] at h
      obtain ⟨hc, hh⟩ := ih _ _ _ _ h
      refine ⟨?_, ?_⟩
      · rw [hc]
        simp [List.countP_cons, h1]
        omega
      · rw [hh]
        have hf : (p.risk_level == "high") = false := by rw [h1]; rfl
        simp [List.countP_cons, hf]
    · by_cases h2 : p.risk_level = "high"
      · rw [buildLevelsAux_cons, h2, bumpLevel_high] at h
        obtain ⟨hc, hh⟩ := ih _ _ _ _ h
        refine ⟨?_, ?_⟩
        · rw [hc]
          have hf : (p.risk_level == "critical") = false := by rw [h2]; rfl
          simp [List.countP_cons, hf]
        · rw [hh]
          simp [List.countP_cons, h2]
          omega
      · by_cases h3 : p.risk_level = "moderate"
        · rw [buildLevelsAux_cons, h3, bumpLevel_moderate] at h
          obtain ⟨hc, hh⟩ := ih _ _ _ _ h
          have hfc : (p.risk_level == "critical") = false := by rw [h3]; rfl
          have hfh : (p.risk_level == "high") = false := by rw [h3]; rfl
          refine ⟨?_, ?_⟩
          · rw [hc]; simp [List.countP_cons, hfc]
          · rw [hh]; simp [List.countP_cons, hfh]
        · by_cases h4 : p.risk_level = "low"
          · rw [buildLevelsAux_cons, h4, bumpLevel_low] at h
            obtain ⟨hc, hh⟩ := ih _ _ _ _ h
            have hfc : (p.risk_level == "critical") = false := by rw [h4]; rfl
            have hfh : (p.risk_level == "high") = false := by rw [h4]; rfl
            refine ⟨?_, ?_⟩
            · rw [hc]; simp [List.countP_cons, hfc]
            · rw [hh]; simp [List.countP_cons, hfh]
          · have hv : validLevel p.risk_level = false := by
              simp [validLevel, h1, h2, h3, h4]
            rw [buildLevelsAux_cons, bumpLevel_invalid _ _ hv] at h
            exact absurd h (by simp)

/-- Characterisation of the cohort-status expression. -/
theorem team_health_status_spec (c h : ℕ) :
    (team_health_status c h = "ALERT" ↔ 0 < c) ∧
    (team_health_status c h = "CAUTION" ↔ c = 0 ∧ 2 < h) ∧
    (team_health_status c h = "GOOD" ↔ c = 0 ∧ h ≤ 2) := by
  have hCA : ("CAUTION" : String) ≠ "ALERT" := by decide
  have hCG : ("CAUTION" : String) ≠ "GOOD" := by decide
  have hGA : ("GOOD" : String) ≠ "ALERT" := by decide
  have hGC : ("GOOD" : String) ≠ "CAUTION" := by decide
  have hAC : ("ALERT" : String) ≠ "CAUTION" := by decide
  have hAG : ("ALERT" : String) ≠ "GOOD" := by decide
  unfold team_health_status
  split_ifs with h1 h2
  · exact ⟨⟨fun _ => h1, fun _ => rfl⟩,
      ⟨fun hx => absurd hx hAC, fun hp => absurd hp.1 (by omega)⟩,
      ⟨fun hx => absurd hx hAG, fun hp => absurd hp.1 (by omega)⟩⟩
  · exact ⟨⟨fun hx => absurd hx hCA, fun h0 => absurd h0 h1⟩,
      ⟨fun _ => ⟨by omega, h2⟩, fun _ => rfl⟩,
      ⟨fun hx => absurd hx hCG, fun hp => absurd h2 (not_lt.mpr hp.2)⟩⟩
  · exact ⟨⟨fun hx => absurd hx hGA, fun h0 => absurd h0 h1⟩,
      ⟨fun hx => absurd hx hGC, fun hp => absurd hp.2 h2⟩,
      ⟨fun _ => ⟨by omega, by omega⟩, fun _ => rfl⟩⟩

/-- C8: whenever the team summarizer returns a summary, its status is
"ALERT" exactly when at least one athlete is at the "critical" level,
"CAUTION" exactly when none is critical and strictly more than 2 are at the
"high" level, and "GOOD" otherwise. -/
theorem team_status_characterisation :
    ∀ (preds : List PlayerPred) (s : TeamSummary),
      get_team_risk_summary preds = .ok (.summary s) →
      ((s.team_health_status = "ALERT" ↔
          0 < preds.countP (fun p => p.risk_level == "critical")) ∧
       (s.team_health_status = "CAUTION" ↔
          preds.countP (fun p => p.risk_level == "critical") = 0 ∧
          2 < preds.countP (fun p => p.risk_level == "high")) ∧
       (s.team_health_status = "GOOD" ↔
          preds.countP (fun p => p.risk_level == "critical") = 0 ∧
          preds.countP (fun p => p.risk_level == "high") ≤ 2)) := by
  intro preds s h
  unfold get_team_risk_summary at h
  split at h
  · simp at h
  · split at h
    · simp at h
    · rename_i rl tot heq
      simp only [Except.ok.injEq, SummaryOut.summary.injEq] at h
      obtain ⟨hc, hh⟩ := buildLevelsAux_counts preds _ _ _ _ heq
      simp only at hc hh
      rw [Nat.zero_add] at hc hh
      rw [← h]
      simp only
      rw [hc, hh]
      exact team_health_status_spec _ _

/-- A concrete critical-level prediction for instantiating C8. -/
def alertPred : PlayerPred :=
  { player_id := 1, risk_score := 80, risk_level := "critical", risk_factors := [] }

/-- The summary the summarizer produces on `[alertPred]`. -/
def alertSummary : TeamSummary :=
  { total_players := 1
    average_risk_score := 80
    risk_distribution := ⟨1, 0, 0, 0⟩
    players_at_critical_risk := 1
    players_at_high_risk := 0
    top_risk_factors := []
    team_health_status := "ALERT" }

/-- Witness for C8: a one-athlete critical cohort yields status "ALERT". -/
theorem team_status_characterisation_witness :
    get_team_risk_summary [alertPred] = .ok (.summary alertSummary) ∧
    alertSummary.team_health_status = "ALERT" ∧
    0 < List.countP (fun p => p.risk_level == "critical") [alertPred] := by
  have hsum : get_team_risk_summary [alertPred] = .ok (.summary alertSummary) := by
    have h1 : buildLevelsAux ⟨0, 0, 0, 0⟩ 0 [alertPred] = .ok (⟨1, 0, 0, 0⟩, 80) := by
      rw [buildLevelsAux_cons]
      rw [show alertPred.risk_level = "critical" from rfl, bumpLevel_critical]
      norm_num [buildLevelsAux, alertPred]
    unfold get_team_risk_summary
    rw [if_neg (by simp), h1]
    simp only [alertPred, alertSummary]
    norm_num [team_health_status, round1_eq, List.insertionSort]
  refine ⟨hsum, ?_, by decide⟩
  exact ((team_status_characterisation [alertPred] alertSummary hsum).1).mpr (by decide)

/-- A histogram loop over a list containing an out-of-dictionary level
always raises the modelled `KeyError`. -/
theorem buildLevelsAux_error :
    ∀ (l : List PlayerPred) (rl : RiskLevels) (tot : ℚ),
      (∃ p ∈ l, validLevel p.risk_level = false) →
      ∃ e, buildLevelsAux rl tot l = .error e := by
  intro l
  induction l with
  | nil =>
    intro rl tot h
    obtain ⟨p, hp, _⟩ := h
    exact absurd hp (List.not_mem_nil p)
  | cons p ps ih =>
    intro rl tot h
    by_cases hv : validLevel p.risk_level = false
    · exact ⟨_, by rw [buildLevelsAux_cons, bumpLevel_invalid rl _ hv]⟩
    · obtain ⟨q, hq, hbad⟩ := h
      have hq' : q ∈ ps := by
        rcases List.mem_cons.mp hq with rfl | hmem
        · exact absurd hbad hv
        · exact hmem
      have hvt : validLevel p.risk_level = true := by
        cases hx : validLevel p.risk_level
        · exact absurd hx hv
        · rfl
      have hok : ∃ rl2, bumpLevel rl p.risk_level = .ok rl2 := by
        simp only [validLevel, Bool.or_eq_true, beq_iff_eq] at hvt
        rcases hvt with ((h1 | h1) | h1) | h1
        · exact ⟨_, by rw [h1, bumpLevel_critical]⟩
        · exact ⟨_, by rw [h1, bumpLevel_high]⟩
        · exact ⟨_, by rw [h1, bumpLevel_moderate]⟩
        · exact ⟨_, by rw [h1, bumpLevel_low]⟩
      obtain ⟨rl2, hrl2⟩ := hok
      obtain ⟨e, he⟩ := ih rl2 (tot + p.risk_score) ⟨q, hq', hbad⟩
      exact ⟨e, by rw [buildLevelsAux_cons, hrl2]; exact he⟩

/-- C10: on any non-empty cohort containing a prediction whose level is not
one of the four histogram keys, the team summarizer raises the modelled
`KeyError` instead of returning a summary. -/
theorem invalid_level_raises :
    ∀ preds : List PlayerPred, preds ≠ [] →
      (∃ p ∈ preds, validLevel p.risk_level = false) →
      isError (get_team_risk_summary preds) = true := by
  intro preds hne hbad
  obtain ⟨e, he⟩ := buildLevelsAux_error preds ⟨0, 0, 0, 0⟩ 0 hbad
  unfold get_team_risk_summary
  rw [if_neg hne, he]
  rfl

/-- A concrete prediction carrying the "medium" level that the analytics
injury-risk endpoint produces (risk score 40 from age and heart-rate
factors). -/
def mediumPred : PlayerPred :=
  { player_id := 2
    risk_score := 40
    risk_level := analytics_risk_level (analytics_risk_score 0 32 185 0)
    risk_factors := [] }

/-- Witness for C10: the analytics endpoint's "medium" level crashes the
team summarizer. -/
theorem invalid_level_raises_witness :
    mediumPred.risk_level = "medium" ∧
    [mediumPred] ≠ ([] : List PlayerPred) ∧
    validLevel mediumPred.risk_level = false ∧
    isError (get_team_risk_summary [mediumPred]) = true := by
  have hmed : mediumPred.risk_level = "medium" := by
    norm_num [mediumPred, analytics_risk_level, analytics_risk_score]
  refine ⟨hmed, by simp, by rw [hmed]; rfl, ?_⟩
  exact invalid_level_raises [mediumPred] (by simp)
    ⟨mediumPred, by simp, by rw [hmed]; rfl⟩
